import Mathlib

set_option maxHeartbeats 1000000

/-!
Shallow embedding of the SonarCloud metrics-collection pipeline
(src/sonar_results.py) and of the upsert variant (src/sonar_to_db.py).
Remote HTTP calls are modelled by the outcome the Python code observes
(a raised request-level exception, or a status code plus a JSON body of
the shape the code reads); the PostgreSQL side is modelled as an explicit
operation trace and as a table value.
-/

namespace SonarPipeline

/-- Python exception classes distinguished by the handlers in
sonar_results.py. requestException covers requests.exceptions.RequestException
and its subclasses, including the HTTPError raised by raise_for_status and,
for requests 2.27 and later, the JSONDecodeError raised by response.json on
an invalid body. attributeError models calling a string method on None;
valueError and keyError are the classes named in the date-parsing handler. -/
inductive PyExn where
  | requestException
  | valueError
  | keyError
  | attributeError
deriving DecidableEq

/-- Outcome of one requests.get call as the caller observes it: exn is a
raised connection-level RequestException (connection failure, timeout);
resp carries the HTTP status code together with the response body parsed
as JSON of the expected shape, none standing for a body that is not valid
JSON. -/
inductive HttpOutcome (α : Type) where
  | exn : HttpOutcome α
  | resp : Nat → Option α → HttpOutcome α
deriving DecidableEq

/-- One element of the measures array in the measures/component response:
the metric key, and the value field when present (measure.get of value). -/
structure Measure where
  metric : String
  value : Option String
deriving DecidableEq

/-- The part of the measures/component JSON body that get_project_measures
reads: data.get component, then .get measures, defaulting to the empty list. -/
structure MeasuresPayload where
  measures : List Measure
deriving DecidableEq

/-- One element of the analyses array in the project_analyses/search
response; every field is read with .get and may be absent. -/
structure AnalysisEntry where
  date : Option String
  revision : Option String
  branch : Option String
deriving DecidableEq

/-- The part of the project_analyses/search JSON body that
get_latest_analysis reads. -/
structure AnalysesPayload where
  analyses : List AnalysisEntry
deriving DecidableEq

/-- The components array of the projects/search response; only its length
is inspected by verify_project_exists. -/
structure ComponentsPayload where
  components : List String
deriving DecidableEq

/-- The projectStatus object of the qualitygates/project_status response;
its status field may be absent. -/
structure QGStatusObj where
  status : Option String
deriving DecidableEq

/-- The part of the qualitygates/project_status JSON body that
get_quality_gate_status reads; the projectStatus key may be absent. -/
structure QGPayload where
  projectStatus : Option QGStatusObj
deriving DecidableEq

/-- The metric catalog of sonar_results.py (module-level variable metrics,
lines 44-56): the fixed ordered list of metric identifiers fetched and
stored, one table column per entry. -/
def metrics : List String :=
  ["coverage", "bugs", "vulnerabilities", "code_smells",
   "sqale_index", "ncloc", "duplicated_lines_density",
   "maintainability_rating", "reliability_rating", "security_rating",
   "alert_status", "blocker_violations", "critical_violations", "major_violations",
   "minor_violations", "info_violations", "tests", "test_errors", "test_failures",
   "test_execution_time", "test_success_density", "lines", "comment_lines_density",
   "complexity", "functions", "statements", "classes", "files", "branch_coverage",
   "line_coverage", "new_coverage", "new_bugs", "new_vulnerabilities", "new_code_smells",
   "new_duplicated_lines_density", "new_lines", "new_maintainability_rating",
   "new_reliability_rating", "new_security_rating", "new_technical_debt",
   "new_lines_to_cover", "new_uncovered_lines", "new_violations"]

/-- Python dict assignment d[k] = v: overwrite the binding when the key is
already present, append a new binding otherwise (insertion order kept). -/
def dictSet (d : List (String × Option String)) (k : String) (v : Option String) :
    List (String × Option String) :=
  if d.any (fun p => p.1 = k) then
    d.map (fun p => if p.1 = k then (k, v) else p)
  else d ++ [(k, v)]

/-- The binding stored for a key, when the key is present. -/
def dictFind (d : List (String × Option String)) (k : String) : Option (Option String) :=
  (d.find? (fun p => p.1 = k)).map Prod.snd

/-- Python d.get(k): None when the key is absent, the stored value
otherwise; a stored None is indistinguishable from absence here. -/
def dictGet (d : List (String × Option String)) (k : String) : Option String :=
  match dictFind d k with
  | none => none
  | some v => v

/-- A Python datetime value as produced by datetime.fromisoformat or
datetime.now: civil fields plus an optional fixed utc offset in minutes
(none for a naive datetime). -/
structure PyDatetime where
  year : Nat
  month : Nat
  day : Nat
  hour : Nat
  minute : Nat
  second : Nat
  microsecond : Nat
  tzOffsetMinutes : Option Int
deriving DecidableEq

def digitVal (c : Char) : Nat := c.toNat - 48

/-- Read exactly two decimal digits. -/
def read2 : List Char → Option (Nat × List Char)
  | a :: b :: cs =>
    if a.isDigit && b.isDigit then some (digitVal a * 10 + digitVal b, cs) else none
  | _ => none

/-- Read exactly four decimal digits. -/
def read4 : List Char → Option (Nat × List Char)
  | a :: b :: c :: d :: cs =>
    if a.isDigit && b.isDigit && c.isDigit && d.isDigit then
      some (((digitVal a * 10 + digitVal b) * 10 + digitVal c) * 10 + digitVal d, cs)
    else none
  | _ => none

/-- Read one to six fractional-second digits, scaled to microseconds. -/
def readFrac (cs : List Char) : Option (Nat × List Char) :=
  let ds := cs.takeWhile Char.isDigit
  let rest := cs.dropWhile Char.isDigit
  if ds.length = 0 || 6 < ds.length then none
  else some (ds.foldl (fun n c => n * 10 + digitVal c) 0 * 10 ^ (6 - ds.length), rest)

/-- Parse the utc-offset tail of an ISO timestamp as accepted by
datetime.fromisoformat (Python 3.11 grammar restricted to the forms the
pipeline meets): empty for naive, Z or z, or a sign followed by HH, HHMM
or HH:MM, with the usual range checks. -/
def parseOffset : List Char → Option (Option Int)
  | [] => some none
  | ['Z'] => some (some 0)
  | ['z'] => some (some 0)
  | sign :: cs =>
    if sign = '+' || sign = '-' then
      match read2 cs with
      | none => none
      | some (hh, cs1) =>
        let finish : Nat → Nat → Option (Option Int) := fun h m =>
          if h ≤ 23 && m ≤ 59 then
            some (some (if sign = '-' then -((h : Int) * 60 + m) else (h : Int) * 60 + m))
          else none
        match cs1 with
        | [] => finish hh 0
        | ':' :: cs2 =>
          match read2 cs2 with
          | some (mm, []) => finish hh mm
          | _ => none
        | _ =>
          match read2 cs1 with
          | some (mm, []) => finish hh mm
          | _ => none
    else none

/-- Parse the time-of-day part HH[:MM[:SS[.ffffff]]] followed by an
optional utc offset; returns raw field values, range checks are done by
the caller. -/
def parseTime (cs : List Char) : Option (Nat × Nat × Nat × Nat × Option Int) :=
  match read2 cs with
  | none => none
  | some (hh, cs1) =>
    match cs1 with
    | ':' :: cs2 =>
      match read2 cs2 with
      | none => none
      | some (mm, cs3) =>
        match cs3 with
        | ':' :: cs4 =>
          match read2 cs4 with
          | none => none
          | some (ss, cs5) =>
            match cs5 with
            | '.' :: cs6 =>
              match readFrac cs6 with
              | none => none
              | some (us, cs7) =>
                match parseOffset cs7 with
                | none => none
                | some off => some (hh, mm, ss, us, off)
            | ',' :: cs6 =>
              match readFrac cs6 with
              | none => none
              | some (us, cs7) =>
                match parseOffset cs7 with
                | none => none
                | some off => some (hh, mm, ss, us, off)
            | _ =>
              match parseOffset cs5 with
              | none => none
              | some off => some (hh, mm, ss, 0, off)
        | _ =>
          match parseOffset cs3 with
          | none => none
          | some off => some (hh, mm, 0, 0, off)
    | _ =>
      match parseOffset cs1 with
      | none => none
      | some off => some (hh, 0, 0, 0, off)

def isLeapYear (y : Nat) : Bool :=
  y % 4 = 0 && (y % 100 ≠ 0 || y % 400 = 0)

def daysInMonth (y m : Nat) : Nat :=
  if m = 2 then (if isLeapYear y then 29 else 28)
  else if m = 4 || m = 6 || m = 9 || m = 11 then 30
  else 31

/-- Model of datetime.fromisoformat on a character list: a dashed calendar
date, then optionally a one-character separator and a time-of-day with
optional utc offset; none models the ValueError Python raises on any
other string or out-of-range field. -/
def fromisoformatList (cs : List Char) : Option PyDatetime :=
  match read4 cs with
  | none => none
  | some (y, cs1) =>
    match cs1 with
    | '-' :: cs2 =>
      match read2 cs2 with
      | none => none
      | some (mo, cs3) =>
        match cs3 with
        | '-' :: cs4 =>
          match read2 cs4 with
          | none => none
          | some (d, cs5) =>
            let mk : Nat → Nat → Nat → Nat → Option Int → Option PyDatetime :=
              fun hh mm ss us off =>
                if 1 ≤ y && 1 ≤ mo && mo ≤ 12 && 1 ≤ d && d ≤ daysInMonth y mo &&
                    hh ≤ 23 && mm ≤ 59 && ss ≤ 59 then
                  some ⟨y, mo, d, hh, mm, ss, us, off⟩
                else none
            match cs5 with
            | [] => mk 0 0 0 0 none
            | _ :: cs6 =>
              match parseTime cs6 with
              | none => none
              | some (hh, mm, ss, us, off) => mk hh mm ss us off
        | _ => none
    | _ => none

/-- Model of datetime.fromisoformat on a string. -/
def fromisoformat (s : String) : Option PyDatetime :=
  fromisoformatList s.toList

/-- The source expression date.replace applied at line 230 of
sonar_results.py: the pattern is the single character Z, so Python
str.replace rewrites every occurrence of that character to +00:00. -/
def replaceZ (s : String) : String :=
  String.mk (s.toList.foldr
    (fun c acc => if c = 'Z' then '+' :: '0' :: '0' :: ':' :: '0' :: '0' :: acc else c :: acc)
    [])

/-- Embedding of get_project_measures (sonar_results.py lines 118-146).
Every textual return path of the Python function returns a dict, so the
result is always some; the Option codomain keeps the None value the
caller at line 223 tests for expressible. 401 and 404 return the empty
dict explicitly, every other 4xx or 5xx status makes raise_for_status
raise an HTTPError that the RequestException handler turns into the empty
dict, an invalid JSON body is caught by the same handlers, and on success
the dict is built from the measures array in order. -/
def get_project_measures (r : HttpOutcome MeasuresPayload) :
    Option (List (String × Option String)) :=
  match r with
  | .exn => some []
  | .resp code body =>
    if code = 401 then some []
    else if code = 404 then some []
    else if 400 ≤ code then some []
    else
      match body with
      | none => some []
      | some p => some (p.measures.foldl (fun d m => dictSet d m.metric m.value) [])

/-- The try-block of get_quality_gate_status (sonar_results.py lines
151-155) before its exception handler: raise_for_status throws on 4xx/5xx
and response.json throws on an invalid body, both as RequestException
subclasses; otherwise the status is read with .get defaults. -/
def qg_try_body (r : HttpOutcome QGPayload) : Except PyExn String :=
  match r with
  | .exn => .error .requestException
  | .resp code body =>
    if 400 ≤ code then .error .requestException
    else
      match body with
      | none => .error .requestException
      | some p =>
        .ok (match p.projectStatus with
             | none => "UNKNOWN"
             | some ps => ps.status.getD "UNKNOWN")

/-- Embedding of get_quality_gate_status (sonar_results.py lines 148-158):
the except clause catches exactly RequestException and returns ERROR;
any other exception class would propagate to the caller. -/
def get_quality_gate_status (r : HttpOutcome QGPayload) : Except PyExn String :=
  match qg_try_body r with
  | .error .requestException => .ok "ERROR"
  | other => other

/-- The analysis-info dict built by get_latest_analysis: date and revision
are read with plain .get and may be None, branch defaults to main. -/
structure AnalysisInfo where
  date : Option String
  revision : Option String
  branch : String
deriving DecidableEq

/-- Embedding of get_latest_analysis (sonar_results.py lines 160-181):
RequestException (including raise_for_status on 4xx/5xx and invalid JSON)
is caught and yields None, an empty analyses array yields None, otherwise
the first entry is summarised. -/
def get_latest_analysis (r : HttpOutcome AnalysesPayload) : Option AnalysisInfo :=
  match r with
  | .exn => none
  | .resp code body =>
    if 400 ≤ code then none
    else
      match body with
      | none => none
      | some p =>
        match p.analyses with
        | [] => none
        | latest :: _ => some ⟨latest.date, latest.revision, latest.branch.getD "main"⟩

/-- The try-block of verify_project_exists (sonar_results.py lines
190-197): on a 200 response the components array is counted, on any other
status the function falls through to return False; a raised exception
reaches the handler. -/
def verify_body (r : HttpOutcome ComponentsPayload) : Except PyExn Bool :=
  match r with
  | .exn => .error .requestException
  | .resp code body =>
    if code = 200 then
      match body with
      | none => .error .requestException
      | some p => .ok (decide (0 < p.components.length))
    else .ok false

/-- Embedding of verify_project_exists (sonar_results.py lines 183-201):
the handler catches every Exception and returns False. -/
def verify_project_exists (r : HttpOutcome ComponentsPayload) : Bool :=
  match verify_body r with
  | .ok b => b
  | .error _ => false

/-- Embedding of the date-parsing block of process_project (sonar_results.py
lines 228-233). A None date makes the attribute access on None raise an
AttributeError that the except clause (ValueError, KeyError) does not
catch; a string date has its Z characters replaced and is handed to
fromisoformat, whose ValueError on a malformed string is caught and
replaced by datetime.now(). -/
def parse_analysis_date (dateStr : Option String) (now : PyDatetime) :
    Except PyExn PyDatetime :=
  match dateStr with
  | none => .error .attributeError
  | some s =>
    match fromisoformat (replaceZ s) with
    | some d => .ok d
    | none => .ok now

/-- One value position of a row bound into the insert statement: a Python
string, a datetime, or None. -/
inductive Cell where
  | str : String → Cell
  | dt : PyDatetime → Cell
  | null : Cell
deriving DecidableEq

/-- measures.get of a metric key produces the cell bound for that column:
None becomes SQL NULL, a present string value is bound as a string. -/
def Cell.ofOpt : Option String → Cell
  | some v => .str v
  | none => .null

/-- Everything one call of process_project observes from the outside
world: the project configuration entry it was given, the outcome of each
of its four HTTP calls, and the current wall-clock time used as the
fallback analysis date. -/
structure ProjectEnv where
  projectKey : String
  repoName : String
  existsResp : HttpOutcome ComponentsPayload
  analysisResp : HttpOutcome AnalysesPayload
  measuresResp : HttpOutcome MeasuresPayload
  qgResp : HttpOutcome QGPayload
  now : PyDatetime
deriving DecidableEq

/-- Embedding of process_project (sonar_results.py lines 203-245): skip
with an empty list when the project does not verify, when no analysis is
found, or when the measures value is None; otherwise fetch the quality
gate, parse the analysis date, and assemble the single row: the five
fixed leading positions followed by one position per catalog metric in
catalog order, each filled by measures.get. An exception raised by a
callee propagates as the error case. -/
def process_project (env : ProjectEnv) : Except PyExn (List (List Cell)) :=
  if !(verify_project_exists env.existsResp) then .ok []
  else
    match get_latest_analysis env.analysisResp with
    | none => .ok []
    | some analysisInfo =>
      match get_project_measures env.measuresResp with
      | none => .ok []
      | some measures =>
        match get_quality_gate_status env.qgResp with
        | .error e => .error e
        | .ok qualityGate =>
          match parse_analysis_date analysisInfo.date env.now with
          | .error e => .error e
          | .ok analysisDate =>
            .ok [[Cell.str env.repoName, Cell.str env.projectKey, Cell.dt analysisDate,
                  Cell.str analysisInfo.branch, Cell.str qualityGate]
                 ++ metrics.map (fun m => Cell.ofOpt (dictGet measures m))]

/-- The body of the per-project loop of main (sonar_results.py lines
311-317): the rows of a successful call extend all_data, any raised
exception is caught and the loop continues with nothing added. -/
def loop_step (env : ProjectEnv) : List (List Cell) :=
  match process_project env with
  | .ok rows => rows
  | .error _ => []

/-- The all_data list main has accumulated after its loop over the
configured projects. -/
def collect_project_data (envs : List ProjectEnv) : List (List Cell) :=
  envs.foldl (fun acc env => acc ++ loop_step env) []

/-- One statement executed against the PostgreSQL connection, as traced by
main and its helpers. -/
inductive DbOp where
  | createTableIfNotExists
  | createIndexIfNotExists
  | commit
  | insertRows : Nat → DbOp
  | close
deriving DecidableEq

/-- The statements setup_database (sonar_results.py lines 73-101) executes
on the success path: the CREATE TABLE IF NOT EXISTS, the CREATE INDEX IF
NOT EXISTS, and the commit. -/
def setup_database_ops : List DbOp :=
  [.createTableIfNotExists, .createIndexIfNotExists, .commit]

/-- The statements insert_sonar_data (sonar_results.py lines 103-115)
executes: one executemany over the batch, then a commit. -/
def insert_sonar_data_ops (data : List (List Cell)) : List DbOp :=
  [.insertRows data.length, .commit]

/-- The placeholder list of the insert statement (sonar_results.py line
106): the Python expression replicates one %s placeholder per bound
column, five fixed columns plus one per catalog metric. -/
def insert_placeholders : List String :=
  List.replicate (5 + metrics.length) "%s"

/-- The trace of database statements main (sonar_results.py lines 305-324)
executes once access verification and the connection have succeeded:
setup_database always runs first, insert_sonar_data runs only when
all_data is non-empty, and the connection is closed at the end. -/
def main_db_ops (envs : List ProjectEnv) : List DbOp :=
  setup_database_ops ++
    (if collect_project_data envs ≠ [] then insert_sonar_data_ops (collect_project_data envs)
     else []) ++
    [.close]

/-- How many rows a trace of database statements inserts. -/
def persistedCount (ops : List DbOp) : Nat :=
  (ops.map (fun op => match op with | .insertRows n => n | _ => 0)).sum

/-- Whether a statement writes to the destination store (DDL or insert). -/
def isWriteOp : DbOp → Bool
  | .createTableIfNotExists => true
  | .createIndexIfNotExists => true
  | .insertRows _ => true
  | .commit => false
  | .close => false

/-- Column order of the CREATE TABLE statement of setup_database
(sonar_results.py lines 80-91): the fixed identity, timing and status
columns, one column per catalog metric in catalog order, and created_at. -/
def sonarqube_results_columns : List String :=
  ["id", "repo_name", "project_key", "analysis_date", "branch", "quality_gate_status"]
    ++ metrics ++ ["created_at"]

/-- State of the destination store as far as setup_database can affect it:
the sonarqube_results table (its column list) when it exists, whether the
lookup index exists, and the stored rows. -/
structure Database where
  table : Option (List String)
  hasIndex : Bool
  rows : List (List Cell)
deriving DecidableEq

/-- Embedding of setup_database on its success path (sonar_results.py
lines 73-101): CREATE TABLE IF NOT EXISTS creates the catalog-shaped
table when absent and leaves an existing table, with its data, untouched;
CREATE INDEX IF NOT EXISTS likewise; then commit. -/
def setup_database (db : Database) : Database :=
  { table := some (db.table.getD sonarqube_results_columns)
  , hasIndex := true
  , rows := db.rows }

/-- One row of the table sonar_to_db.py writes: the conflict key pair and
the two metric columns it binds (coverage as a Python float, bugs as an
int; floats are modelled as rationals, the statement never computes on
them). -/
structure UpsertRow where
  projectKey : String
  analysisDate : String
  coverage : Rat
  bugs : Int
deriving DecidableEq

/-- Whether a stored row conflicts with the offered row on the
(project_key, analysis_date) constraint. -/
def upsertKeyMatches (x r : UpsertRow) : Bool :=
  x.projectKey = r.projectKey && x.analysisDate = r.analysisDate

/-- Embedding of the INSERT ... ON CONFLICT (project_key, analysis_date)
DO UPDATE statement of sonar_to_db.py lines 77-90: on conflict the stored
coverage and bugs are overwritten by the excluded values, otherwise the
row is appended. -/
def upsert_sonar_row (tbl : List UpsertRow) (r : UpsertRow) : List UpsertRow :=
  if tbl.any (fun x => upsertKeyMatches x r) then
    tbl.map (fun x =>
      if upsertKeyMatches x r then { x with coverage := r.coverage, bugs := r.bugs } else x)
  else tbl ++ [r]

/-- Number of stored rows carrying a given conflict key. -/
def countKey (tbl : List UpsertRow) (pk ad : String) : Nat :=
  (tbl.filter (fun x => x.projectKey = pk && x.analysisDate = ad)).length

/-- A fixed wall-clock instant used as datetime.now() in concrete runs. -/
def now0 : PyDatetime := ⟨2024, 6, 1, 12, 0, 0, 0, none⟩

/-- A concrete environment in which every remote call succeeds and the
measures response reports exactly one catalog metric. -/
def goodEnv : ProjectEnv :=
  { projectKey := "shantanu10839179_github-actions-lab"
  , repoName := "shantanu10839179/github-actions-lab"
  , existsResp := .resp 200 (some ⟨["shantanu10839179_github-actions-lab"]⟩)
  , analysisResp := .resp 200 (some ⟨[⟨some "2024-01-01T10:00:00Z", some "abc123", some "main"⟩]⟩)
  , measuresResp := .resp 200 (some ⟨[⟨"coverage", some "87.5"⟩]⟩)
  , qgResp := .resp 200 (some ⟨some ⟨some "OK"⟩⟩)
  , now := now0 }

/-- A concrete environment whose analysis entry has no date field: the
attribute access on None raises inside process_project, exercising the
per-project exception handler of main. -/
def faultEnv : ProjectEnv :=
  { projectKey := "faulty_project"
  , repoName := "org/faulty_project"
  , existsResp := .resp 200 (some ⟨["faulty_project"]⟩)
  , analysisResp := .resp 200 (some ⟨[⟨none, none, some "main"⟩]⟩)
  , measuresResp := .resp 200 (some ⟨[]⟩)
  , qgResp := .resp 200 (some ⟨some ⟨some "OK"⟩⟩)
  , now := now0 }

/-- A concrete environment whose measures call raises a network error
while everything else succeeds. -/
def measuresFailEnv : ProjectEnv :=
  { projectKey := "shantanu10839179_github-actions-lab"
  , repoName := "shantanu10839179/github-actions-lab"
  , existsResp := .resp 200 (some ⟨["shantanu10839179_github-actions-lab"]⟩)
  , analysisResp := .resp 200 (some ⟨[⟨some "2024-01-01T10:00:00Z", some "abc123", some "main"⟩]⟩)
  , measuresResp := .exn
  , qgResp := .exn
  , now := now0 }

/-- A concrete environment whose quality-gate call raises a network error
while everything else succeeds. -/
def qgFailEnv : ProjectEnv :=
  { projectKey := "shantanu10839179_github-actions-lab"
  , repoName := "shantanu10839179/github-actions-lab"
  , existsResp := .resp 200 (some ⟨["shantanu10839179_github-actions-lab"]⟩)
  , analysisResp := .resp 200 (some ⟨[⟨some "2024-01-01T10:00:00Z", some "abc123", some "main"⟩]⟩)
  , measuresResp := .resp 200 (some ⟨[⟨"coverage", some "87.5"⟩]⟩)
  , qgResp := .exn
  , now := now0 }

/-- The single row of a successful process_project call, used to name
that row in closed statements. -/
def firstRow (env : ProjectEnv) : List Cell :=
  match process_project env with
  | .ok (r :: _) => r
  | _ => []

theorem get_project_measures_isSome (r : HttpOutcome MeasuresPayload) :
    ∃ d, get_project_measures r = some d := by
  unfold get_project_measures
  rcases r with _ | ⟨code, body⟩
  · exact ⟨[], rfl⟩
  · by_cases h1 : code = 401
    · exact ⟨[], by simp [h1]⟩
    · by_cases h2 : code = 404
      · exact ⟨[], by simp [h1, h2]⟩
      · by_cases h3 : 400 ≤ code
        · exact ⟨[], by simp [h1, h2, h3]⟩
        · cases body with
          | none => exact ⟨[], by simp [h1, h2, h3]⟩
          | some p =>
            exact ⟨p.measures.foldl (fun d m => dictSet d m.metric m.value) [],
                   by simp [h1, h2, h3]⟩

theorem get_quality_gate_status_total (r : HttpOutcome QGPayload) :
    ∃ s, get_quality_gate_status r = .ok s := by
  rcases r with _ | ⟨code, body⟩
  · exact ⟨"ERROR", rfl⟩
  · by_cases hc : 400 ≤ code
    · exact ⟨"ERROR", by simp [get_quality_gate_status, qg_try_body, hc]⟩
    · cases body with
      | none => exact ⟨"ERROR", by simp [get_quality_gate_status, qg_try_body, hc]⟩
      | some p =>
        cases hps : p.projectStatus with
        | none =>
          exact ⟨"UNKNOWN", by simp [get_quality_gate_status, qg_try_body, hc, hps]⟩
        | some ps =>
          exact ⟨ps.status.getD "UNKNOWN",
                 by simp [get_quality_gate_status, qg_try_body, hc, hps]⟩

theorem process_project_ok_shape (env : ProjectEnv) (rows : List (List Cell))
    (h : process_project env = .ok rows) :
    rows = [] ∨
      ∃ ai d qs dt,
        get_latest_analysis env.analysisResp = some ai ∧
        get_project_measures env.measuresResp = some d ∧
        get_quality_gate_status env.qgResp = .ok qs ∧
        parse_analysis_date ai.date env.now = .ok dt ∧
        rows = [[Cell.str env.repoName, Cell.str env.projectKey, Cell.dt dt,
                 Cell.str ai.branch, Cell.str qs]
                ++ metrics.map (fun m => Cell.ofOpt (dictGet d m))] := by
  unfold process_project at h
  split at h
  · exact Or.inl (Except.ok.inj h).symm
  · split at h
    · exact Or.inl (Except.ok.inj h).symm
    · next ai hma =>
      split at h
      · exact Or.inl (Except.ok.inj h).symm
      · next d hmd =>
        split at h
        · exact Except.noConfusion h
        · next qs hqg =>
          split at h
          · exact Except.noConfusion h
          · next dt hpd =>
            exact Or.inr ⟨ai, d, qs, dt, hma, hmd, hqg, hpd, (Except.ok.inj h).symm⟩

theorem process_project_ready (env : ProjectEnv) (ai : AnalysisInfo) (s : String)
    (h1 : verify_project_exists env.existsResp = true)
    (h2 : get_latest_analysis env.analysisResp = some ai)
    (h3 : ai.date = some s) :
    ∃ d qs dt,
      get_project_measures env.measuresResp = some d ∧
      process_project env =
        .ok [[Cell.str env.repoName, Cell.str env.projectKey, Cell.dt dt,
              Cell.str ai.branch, Cell.str qs]
             ++ metrics.map (fun m => Cell.ofOpt (dictGet d m))] := by
  obtain ⟨d, hd⟩ := get_project_measures_isSome env.measuresResp
  obtain ⟨qs, hq⟩ := get_quality_gate_status_total env.qgResp
  have hpd : ∃ dt, parse_analysis_date ai.date env.now = .ok dt := by
    rw [h3]
    unfold parse_analysis_date
    cases hf : fromisoformat (replaceZ s) with
    | none => exact ⟨env.now, by simp [hf]⟩
    | some dt => exact ⟨dt, by simp [hf]⟩
  obtain ⟨dt, hdt⟩ := hpd
  refine ⟨d, qs, dt, hd, ?_⟩
  unfold process_project
  rw [h1, h2, hd, hq]
  simp [hdt]

/-- C4: for every input the quality-gate lookup returns a status string
wrapped in ok, never an error: a raised network exception and a 4xx/5xx
status yield ERROR, an unparseable body yields ERROR, a parseable body
with missing keys yields UNKNOWN by default; and a project whose
quality-gate call fails is still assembled into a full record rather than
skipped. -/
theorem quality_gate_total_and_degrades :
    (∀ r : HttpOutcome QGPayload, ∃ s, get_quality_gate_status r = .ok s) ∧
    get_quality_gate_status .exn = .ok "ERROR" ∧
    (∀ (code : Nat) (body : Option QGPayload), 400 ≤ code →
      get_quality_gate_status (.resp code body) = .ok "ERROR") ∧
    (∀ code : Nat, code < 400 →
      get_quality_gate_status (.resp code (none : Option QGPayload)) = .ok "ERROR") ∧
    (∀ (env : ProjectEnv) (ai : AnalysisInfo) (s : String),
      verify_project_exists env.existsResp = true →
      get_latest_analysis env.analysisResp = some ai →
      ai.date = some s →
      ∃ row, process_project env = .ok [row]) := by
  refine ⟨get_quality_gate_status_total, rfl, ?_, ?_, ?_⟩
  · intro code body hc
    cases body with
    | none => simp [get_quality_gate_status, qg_try_body, hc]
    | some p => simp [get_quality_gate_status, qg_try_body, hc]
  · intro code hc
    simp [get_quality_gate_status, qg_try_body, Nat.not_le.mpr hc]
  · intro env ai s h1 h2 h3
    obtain ⟨d, qs, dt, _, hp⟩ := process_project_ready env ai s h1 h2 h3
    exact ⟨_, hp⟩

/-- Witness for C4: a server error, an invalid body and a network error
all degrade to ERROR, and the project with the failed quality-gate call
still yields its one assembled record. -/
theorem quality_gate_total_and_degrades_witness :
    get_quality_gate_status (.resp 503 (some ⟨some ⟨some "OK"⟩⟩)) = .ok "ERROR" ∧
    get_quality_gate_status (.resp 200 (none : Option QGPayload)) = .ok "ERROR" ∧
    (∃ row, process_project qgFailEnv = .ok [row]) :=
  ⟨quality_gate_total_and_degrades.2.2.1 503 (some ⟨some ⟨some "OK"⟩⟩) (by decide),
   quality_gate_total_and_degrades.2.2.2.1 200 (by decide),
   quality_gate_total_and_degrades.2.2.2.2 qgFailEnv
     ⟨some "2024-01-01T10:00:00Z", some "abc123", "main"⟩ "2024-01-01T10:00:00Z"
     (by decide) (by decide) rfl⟩

/-- C6: the project-existence check is a total boolean: it yields true
exactly on a 200 response whose body parses and lists at least one
component, and false on every other status, on an unparseable body, and
on a raised request exception. -/
theorem verify_project_exists_characterisation (r : HttpOutcome ComponentsPayload) :
    verify_project_exists r = true ↔
      ∃ p, r = .resp 200 (some p) ∧ 0 < p.components.length := by
  rcases r with _ | ⟨code, body⟩
  · simp [verify_project_exists, verify_body]
  · by_cases hc : code = 200
    · subst hc
      cases body with
      | none => simp [verify_project_exists, verify_body]
      | some p =>
        simp [verify_project_exists, verify_body]
    · cases body with
      | none => simp [verify_project_exists, verify_body, hc]
      | some p => simp [verify_project_exists, verify_body, hc]

/-- C10: a successful call of process_project returns either no row or
exactly one row whose arity equals the number of placeholders
insert_sonar_data builds, so positional binding into the insert statement
cannot mismatch. -/
theorem process_project_row_arity (env : ProjectEnv) (rows : List (List Cell))
    (h : process_project env = .ok rows) :
    rows = [] ∨ ∃ row, rows = [row] ∧ row.length = insert_placeholders.length := by
  rcases process_project_ok_shape env rows h with h0 | ⟨ai, d, qs, dt, _, _, _, _, hrow⟩
  · exact Or.inl h0
  · refine Or.inr ⟨_, hrow, ?_⟩
    simp [insert_placeholders]
    omega

/-- Witness for C10: the fully successful concrete environment returns
one row of the insert arity. -/
theorem process_project_row_arity_witness :
    [firstRow goodEnv] = ([] : List (List Cell)) ∨
    ∃ row, [firstRow goodEnv] = [row] ∧ row.length = insert_placeholders.length :=
  process_project_row_arity goodEnv [firstRow goodEnv] rfl

theorem dictFind_eq_none_iff (d : List (String × Option String)) (m : String) :
    dictFind d m = none ↔ ∀ p ∈ d, p.1 ≠ m := by
  simp [dictFind, List.find?_eq_none]

theorem dictSet_keys_subset (d : List (String × Option String)) (k : String) (v : Option String)
    (m : String) (hk : k ≠ m) (hd : ∀ p ∈ d, p.1 ≠ m) :
    ∀ p ∈ dictSet d k v, p.1 ≠ m := by
  intro p hp
  unfold dictSet at hp
  split at hp
  · obtain ⟨y, hy, hfy⟩ := List.mem_map.mp hp
    by_cases hy1 : y.1 = k
    · simp only [hy1, if_pos rfl] at hfy
      rw [← hfy]
      exact hk
    · simp only [if_neg hy1] at hfy
      rw [← hfy]
      exact hd y hy
  · rcases List.mem_append.mp hp with hin | hin
    · exact hd p hin
    · simp only [List.mem_singleton] at hin
      rw [hin]
      exact hk

theorem build_dict_keys (l : List Measure) (m : String) :
    ∀ acc : List (String × Option String),
      (∀ x ∈ l, x.metric ≠ m) → (∀ p ∈ acc, p.1 ≠ m) →
      ∀ p ∈ l.foldl (fun d x => dictSet d x.metric x.value) acc, p.1 ≠ m := by
  induction l with
  | nil => intro acc _ hacc; exact hacc
  | cons x xs ih =>
    intro acc hl hacc
    simp only [List.foldl_cons]
    exact ih _ (fun y hy => hl y (List.mem_cons_of_mem _ hy))
      (dictSet_keys_subset acc x.metric x.value m (hl x (List.mem_cons_self x xs)) hacc)

/-- C1: a record assembled for a resolvable project with an analysis
carries, after its five fixed positions, exactly one value position per
Metric Catalog entry, in catalog order, filled by looking the metric up
in the dict built from the remote measures response; any metric without a
key in that dict (in particular any catalog metric absent from the
response body) is bound as null, which is distinct from the string zero. -/
theorem assembled_record_matches_catalog (env : ProjectEnv) (row : List Cell)
    (h : process_project env = .ok [row]) :
    ∃ d, get_project_measures env.measuresResp = some d ∧
      row.drop 5 = metrics.map (fun m => Cell.ofOpt (dictGet d m)) ∧
      (row.drop 5).length = metrics.length ∧
      (∀ m, dictFind d m = none →
        Cell.ofOpt (dictGet d m) = Cell.null ∧ Cell.ofOpt (dictGet d m) ≠ Cell.str "0") ∧
      (∀ (code : Nat) (p : MeasuresPayload), env.measuresResp = .resp code (some p) →
        ∀ m, (∀ x ∈ p.measures, x.metric ≠ m) → dictFind d m = none) := by
  rcases process_project_ok_shape env [row] h with h0 | ⟨ai, d, qs, dt, _, hd, _, _, hrow⟩
  · exact absurd h0 (by simp)
  · injection hrow with hr _
    refine ⟨d, hd, ?_, ?_, ?_, ?_⟩
    · rw [hr]
      rfl
    · rw [hr]
      simp
    · intro m hm
      constructor
      · simp [dictGet, hm, Cell.ofOpt]
      · simp [dictGet, hm, Cell.ofOpt]
    · intro code p hresp m hx
      rw [hresp] at hd
      by_cases hc1 : code = 401
      · have hd' : d = [] := by simpa [get_project_measures, hc1] using hd.symm
        subst hd'
        rfl
      · by_cases hc2 : code = 404
        · have hd' : d = [] := by simpa [get_project_measures, hc1, hc2] using hd.symm
          subst hd'
          rfl
        · by_cases hc3 : 400 ≤ code
          · have hd' : d = [] := by
              simpa [get_project_measures, hc1, hc2, hc3] using hd.symm
            subst hd'
            rfl
          · have hd' : d = p.measures.foldl (fun acc x => dictSet acc x.metric x.value) [] := by
              simpa [get_project_measures, hc1, hc2, hc3] using hd.symm
            subst hd'
            exact (dictFind_eq_none_iff _ m).mpr (build_dict_keys p.measures m [] hx (by simp))

/-- Witness for C1: the fully successful concrete environment, whose
measures response carries one catalog metric. -/
theorem assembled_record_matches_catalog_witness :
    ∃ d, get_project_measures goodEnv.measuresResp = some d ∧
      (firstRow goodEnv).drop 5 = metrics.map (fun m => Cell.ofOpt (dictGet d m)) ∧
      ((firstRow goodEnv).drop 5).length = metrics.length ∧
      (∀ m, dictFind d m = none →
        Cell.ofOpt (dictGet d m) = Cell.null ∧ Cell.ofOpt (dictGet d m) ≠ Cell.str "0") ∧
      (∀ (code : Nat) (p : MeasuresPayload), goodEnv.measuresResp = .resp code (some p) →
        ∀ m, (∀ x ∈ p.measures, x.metric ≠ m) → dictFind d m = none) :=
  assembled_record_matches_catalog goodEnv (firstRow goodEnv) rfl

/-- C9: the measures fetch returns a dict on every path, never None, so
the None test at line 223 of process_project can never take its skip
branch: once a project verifies and has an analysis with a date string,
processing always assembles its one record, and a failed measures fetch
(modelled as a raised request exception) fills every catalog metric
position with null instead of skipping the project. -/
theorem measures_failure_never_skips :
    (∀ r : HttpOutcome MeasuresPayload, (get_project_measures r).isSome = true) ∧
    (∀ (env : ProjectEnv) (ai : AnalysisInfo) (s : String),
      verify_project_exists env.existsResp = true →
      get_latest_analysis env.analysisResp = some ai →
      ai.date = some s →
      ∃ row, process_project env = .ok [row] ∧
        (env.measuresResp = .exn → row.drop 5 = metrics.map (fun _ => Cell.null))) := by
  constructor
  · intro r
    obtain ⟨d, hd⟩ := get_project_measures_isSome r
    rw [hd]
    rfl
  · intro env ai s h1 h2 h3
    obtain ⟨d, qs, dt, hd, hp⟩ := process_project_ready env ai s h1 h2 h3
    refine ⟨_, hp, ?_⟩
    intro hexn
    rw [hexn] at hd
    have hd' : d = [] := by
      simpa [get_project_measures] using hd.symm
    rw [hd']
    rfl

/-- Witness for C9: the concrete environment whose measures call raises a
network error still yields one record with every metric position null. -/
theorem measures_failure_never_skips_witness :
    ∃ row, process_project measuresFailEnv = .ok [row] ∧
      (measuresFailEnv.measuresResp = .exn →
        row.drop 5 = metrics.map (fun _ => Cell.null)) :=
  measures_failure_never_skips.2 measuresFailEnv
    ⟨some "2024-01-01T10:00:00Z", some "abc123", "main"⟩ "2024-01-01T10:00:00Z"
    (by decide) (by decide) rfl

/-- C5: the Zulu-suffixed analysis timestamp parses, after the Z
replacement of line 230, to the same instant as the plus-zero-zero-zero-
zero offset form (in fact to the identical aware datetime, utc offset
zero), and any date string the parser rejects falls back to the current
wall-clock time instead of raising. -/
theorem analysis_date_zulu_and_fallback :
    (∀ now : PyDatetime,
      parse_analysis_date (some "2024-01-01T10:00:00Z") now =
        parse_analysis_date (some "2024-01-01T10:00:00+0000") now) ∧
    (∀ now : PyDatetime,
      parse_analysis_date (some "2024-01-01T10:00:00Z") now =
        .ok ⟨2024, 1, 1, 10, 0, 0, 0, some 0⟩) ∧
    (∀ (s : String) (now : PyDatetime),
      fromisoformat (replaceZ s) = none → parse_analysis_date (some s) now = .ok now) := by
  refine ⟨fun now => rfl, fun now => rfl, ?_⟩
  intro s now h
  simp [parse_analysis_date, h]

/-- Witness for C5: a malformed timestamp string is rejected by the
parser and parse_analysis_date substitutes the supplied current time. -/
theorem analysis_date_zulu_and_fallback_witness :
    fromisoformat (replaceZ "not-a-timestamp") = none ∧
    parse_analysis_date (some "not-a-timestamp") now0 = .ok now0 :=
  ⟨by decide,
   analysis_date_zulu_and_fallback.2.2 "not-a-timestamp" now0 (by decide)⟩

theorem collect_aux (envs : List ProjectEnv) :
    ∀ acc : List (List Cell),
      envs.foldl (fun a e => a ++ loop_step e) acc = acc ++ (envs.map loop_step).flatten := by
  induction envs with
  | nil => intro acc; simp
  | cons e es ih =>
    intro acc
    simp only [List.foldl_cons, List.map_cons, List.flatten_cons]
    rw [ih]
    simp [List.append_assoc]

theorem collect_eq_join (envs : List ProjectEnv) :
    collect_project_data envs = (envs.map loop_step).flatten := by
  simpa using collect_aux envs []

theorem join_length_ones (l : List ProjectEnv)
    (h : ∀ env ∈ l, ∃ row, process_project env = .ok [row]) :
    ((l.map loop_step).flatten).length = l.length := by
  induction l with
  | nil => rfl
  | cons e es ih =>
    obtain ⟨row, hrow⟩ := h e (List.mem_cons_self e es)
    simp only [List.map_cons, List.flatten_cons, List.length_append, List.length_cons]
    rw [ih (fun x hx => h x (List.mem_cons_of_mem e hx))]
    simp [loop_step, hrow]
    omega

theorem persisted_eq_collect (envs : List ProjectEnv) :
    persistedCount (main_db_ops envs) = (collect_project_data envs).length := by
  unfold main_db_ops persistedCount
  by_cases h : collect_project_data envs = []
  · simp [h, setup_database_ops]
  · simp [h, setup_database_ops, insert_sonar_data_ops]

/-- C2: a fault raised while processing one configured project is caught
by the per-project handler of the main loop and skips only that project:
with one faulting project among N configured ones, the collected batch,
and with it the number of rows the run persists, is N minus one rather
than zero. -/
theorem fault_isolated_to_one_project (xs ys : List ProjectEnv) (bad : ProjectEnv) (e : PyExn)
    (hbad : process_project bad = .error e)
    (hok : ∀ env ∈ xs ++ ys, ∃ row, process_project env = .ok [row]) :
    (collect_project_data (xs ++ bad :: ys)).length = xs.length + ys.length ∧
    persistedCount (main_db_ops (xs ++ bad :: ys)) = xs.length + ys.length := by
  have hxs : ∀ env ∈ xs, ∃ row, process_project env = .ok [row] :=
    fun env hm => hok env (List.mem_append_left _ hm)
  have hys : ∀ env ∈ ys, ∃ row, process_project env = .ok [row] :=
    fun env hm => hok env (List.mem_append_right _ hm)
  have hlen : (collect_project_data (xs ++ bad :: ys)).length = xs.length + ys.length := by
    rw [collect_eq_join]
    simp only [List.map_append, List.map_cons, List.flatten_append, List.flatten_cons,
               List.length_append]
    rw [join_length_ones xs hxs, join_length_ones ys hys]
    simp [loop_step, hbad]
  exact ⟨hlen, by rw [persisted_eq_collect, hlen]⟩

/-- Witness for C2: one healthy project and one project whose analysis
entry lacks its date (the uncaught attribute error) give one persisted
record, not zero. -/
theorem fault_isolated_to_one_project_witness :
    (collect_project_data ([goodEnv] ++ faultEnv :: [])).length =
      [goodEnv].length + ([] : List ProjectEnv).length ∧
    persistedCount (main_db_ops ([goodEnv] ++ faultEnv :: [])) =
      [goodEnv].length + ([] : List ProjectEnv).length :=
  fault_isolated_to_one_project [goodEnv] [] faultEnv .attributeError rfl
    (by
      intro env henv
      simp only [List.append_nil, List.mem_singleton] at henv
      subst henv
      exact ⟨firstRow goodEnv, rfl⟩)

/-- C3 counterexample: with zero configured projects nothing is collected
and nothing is inserted, yet the statement trace of main still contains
the CREATE TABLE statement of setup_database and its commit, because
setup_database runs unconditionally before the emptiness check: a write
transaction is opened against the destination store. -/
theorem zero_projects_still_write_schema :
    collect_project_data [] = [] ∧
    persistedCount (main_db_ops []) = 0 ∧
    (main_db_ops []).any isWriteOp = true ∧
    DbOp.commit ∈ main_db_ops [] := by
  decide

/-- C3 amended: for every run in which zero projects reach the Ready
state, main completes normally with zero persisted records and never
executes the batch insert; the trace is exactly the schema setup
statements followed by the connection close. -/
theorem zero_ready_skips_insert_only (envs : List ProjectEnv)
    (h : collect_project_data envs = []) :
    main_db_ops envs = setup_database_ops ++ [DbOp.close] ∧
    persistedCount (main_db_ops envs) = 0 ∧
    (∀ n : Nat, DbOp.insertRows n ∉ main_db_ops envs) := by
  have h1 : main_db_ops envs = setup_database_ops ++ [DbOp.close] := by
    unfold main_db_ops
    simp [h]
  refine ⟨h1, ?_, ?_⟩
  · rw [h1]
    decide
  · intro n
    rw [h1]
    simp [setup_database_ops]

/-- Witness for C3 amended: the run over zero configured projects. -/
theorem zero_ready_skips_insert_only_witness :
    main_db_ops [] = setup_database_ops ++ [DbOp.close] ∧
    persistedCount (main_db_ops []) = 0 :=
  ⟨(zero_ready_skips_insert_only [] rfl).1, (zero_ready_skips_insert_only [] rfl).2.1⟩

/-- C7: schema setup is idempotent and non-destructive: a second
invocation leaves the store exactly as the first left it, the stored rows
are never touched, and an existing table keeps its column list while an
absent one is created with the catalog-derived columns plus the index. -/
theorem setup_database_idempotent_nondestructive (db : Database) :
    setup_database (setup_database db) = setup_database db ∧
    (setup_database db).rows = db.rows ∧
    (setup_database db).table = some (db.table.getD sonarqube_results_columns) ∧
    (setup_database db).hasIndex = true := by
  cases db with
  | mk t i r => cases t <;> simp [setup_database]

theorem upsert_pred_preserved (r : UpsertRow) (pk ad : String) (x : UpsertRow) :
    (((if upsertKeyMatches x r then { x with coverage := r.coverage, bugs := r.bugs }
       else x).projectKey = pk) &&
     ((if upsertKeyMatches x r then { x with coverage := r.coverage, bugs := r.bugs }
       else x).analysisDate = ad)) =
    ((x.projectKey = pk) && (x.analysisDate = ad)) := by
  by_cases hm : upsertKeyMatches x r = true <;> simp [hm]

theorem filter_length_map_of_pred_preserved {α : Type} (l : List α) (f : α → α) (p : α → Bool)
    (hf : ∀ x, p (f x) = p x) :
    (List.filter p (l.map f)).length = (List.filter p l).length := by
  induction l with
  | nil => rfl
  | cons x xs ih =>
    simp only [List.map_cons, List.filter_cons, hf]
    split
    · simp [ih]
    · exact ih

theorem countKey_map_update (tbl : List UpsertRow) (r : UpsertRow) (pk ad : String) :
    countKey (tbl.map (fun x =>
      if upsertKeyMatches x r then { x with coverage := r.coverage, bugs := r.bugs } else x))
      pk ad = countKey tbl pk ad := by
  unfold countKey
  exact filter_length_map_of_pred_preserved tbl _ _ (upsert_pred_preserved r pk ad)

theorem countKey_append (t1 t2 : List UpsertRow) (pk ad : String) :
    countKey (t1 ++ t2) pk ad = countKey t1 pk ad + countKey t2 pk ad := by
  unfold countKey
  simp [List.filter_append]

theorem any_key_iff_countKey_pos (tbl : List UpsertRow) (r : UpsertRow) :
    tbl.any (fun x => upsertKeyMatches x r) = true ↔
      0 < countKey tbl r.projectKey r.analysisDate := by
  unfold countKey
  rw [← List.countP_eq_length_filter, List.countP_pos_iff, List.any_eq_true]
  simp [upsertKeyMatches]

theorem upsert_count_one (tbl : List UpsertRow) (r : UpsertRow)
    (h : countKey tbl r.projectKey r.analysisDate ≤ 1) :
    countKey (upsert_sonar_row tbl r) r.projectKey r.analysisDate = 1 := by
  unfold upsert_sonar_row
  by_cases ha : tbl.any (fun x => upsertKeyMatches x r) = true
  · rw [if_pos ha, countKey_map_update]
    have := (any_key_iff_countKey_pos tbl r).mp ha
    omega
  · rw [if_neg ha, countKey_append]
    have h0 : countKey tbl r.projectKey r.analysisDate = 0 := by
      by_contra hne
      exact ha ((any_key_iff_countKey_pos tbl r).mpr (by omega))
    rw [h0]
    simp [countKey, List.filter]

theorem upsert_values_latest (tbl : List UpsertRow) (r : UpsertRow)
    (hin : tbl.any (fun x => upsertKeyMatches x r) = true) :
    ∀ x ∈ upsert_sonar_row tbl r,
      x.projectKey = r.projectKey → x.analysisDate = r.analysisDate →
      x.coverage = r.coverage ∧ x.bugs = r.bugs := by
  intro x hx hpk had
  unfold upsert_sonar_row at hx
  rw [if_pos hin] at hx
  obtain ⟨y, hy, hfy⟩ := List.mem_map.mp hx
  by_cases hm : upsertKeyMatches y r = true
  · rw [if_pos hm] at hfy
    rw [← hfy]
    exact ⟨rfl, rfl⟩
  · rw [if_neg hm] at hfy
    exfalso
    apply hm
    unfold upsertKeyMatches
    rw [hfy]
    simp [hpk, had]

/-- C8: under the upsert statement of sonar_to_db.py, persisting two rows
carrying the same (project_key, analysis_date) key into a table in which
that key occurs at most once (the uniqueness the ON CONFLICT target
presupposes) leaves exactly one stored row for the key, and that row
holds the metric values of the later persist. -/
theorem upsert_same_key_keeps_latest (tbl : List UpsertRow) (r1 r2 : UpsertRow)
    (hk1 : r2.projectKey = r1.projectKey) (hk2 : r2.analysisDate = r1.analysisDate)
    (huniq : countKey tbl r1.projectKey r1.analysisDate ≤ 1) :
    countKey (upsert_sonar_row (upsert_sonar_row tbl r1) r2)
      r1.projectKey r1.analysisDate = 1 ∧
    (∀ x ∈ upsert_sonar_row (upsert_sonar_row tbl r1) r2,
      x.projectKey = r1.projectKey → x.analysisDate = r1.analysisDate →
      x.coverage = r2.coverage ∧ x.bugs = r2.bugs) := by
  cases r2 with
  | mk pk2 ad2 c2 b2 =>
    dsimp only at hk1 hk2
    subst hk1
    subst hk2
    have hcnt1 : countKey (upsert_sonar_row tbl r1) r1.projectKey r1.analysisDate = 1 :=
      upsert_count_one tbl r1 huniq
    have hany2 : (upsert_sonar_row tbl r1).any
        (fun x => upsertKeyMatches x ⟨r1.projectKey, r1.analysisDate, c2, b2⟩) = true := by
      apply (any_key_iff_countKey_pos _ _).mpr
      dsimp only
      omega
    constructor
    · have := upsert_count_one (upsert_sonar_row tbl r1)
        ⟨r1.projectKey, r1.analysisDate, c2, b2⟩ (by dsimp only; omega)
      dsimp only at this
      exact this
    · intro x hx hpk had
      exact upsert_values_latest (upsert_sonar_row tbl r1)
        ⟨r1.projectKey, r1.analysisDate, c2, b2⟩ hany2 x hx hpk had

/-- Witness for C8: persisting the same key twice into an empty table
with different coverage and bug values leaves one row with the later
values. -/
theorem upsert_same_key_keeps_latest_witness :
    countKey (upsert_sonar_row (upsert_sonar_row []
        ⟨"projA", "2024-01-01T10:00:00+0000", 87, 3⟩)
        ⟨"projA", "2024-01-01T10:00:00+0000", 93, 5⟩)
      "projA" "2024-01-01T10:00:00+0000" = 1 :=
  (upsert_same_key_keeps_latest [] ⟨"projA", "2024-01-01T10:00:00+0000", 87, 3⟩
    ⟨"projA", "2024-01-01T10:00:00+0000", 93, 5⟩ rfl rfl (by decide)).1

end SonarPipeline
